import Mathlib

/-!
# RideSecure — verification of the Detection Fusion & Violation Correlation core

Shallow embedding, in Lean 4, of the violation-correlation core of the
`ride-secure` repository, together with theorems settling the spec claims.

Embedded source files:
* `src/python/src/detect_helmets.py` — geometric primitives (`iou_box`,
  `center`), the rider-association heuristic, the head-region headgear
  classifier, and the per-track debounce state.
* `src/python/src/ridesecure/detection/detection_service.py` — violation
  identification, nearest-plate correlation, service construction, and the
  results summary.
* `src/python/src/ridesecure/detection/plate_detector.py` — plate text
  cleaning and pattern validation.

Modelling conventions:
* Python floats are modelled by exact rationals (`ℚ`); the float literal
  `1e-9` is modelled as `1/10^9`.  All comparisons proved here are robust to
  this idealisation (the one equality claim about floats, `iou(a,a) == 1.0`,
  is refuted with a margin of ~1e-9, far above double rounding error).
* Python integers are `Int`; Python `//` (floor division) is `Int.fdiv`,
  and Python's `int()` truncation toward zero is `pyInt` below.
* Python exceptions are modelled with `Except String`.
* `np.sqrt` distance comparisons are modelled by comparing squared
  distances, an order-isomorphic transform on nonnegative reals.
-/

namespace RideSecure

/-! ## Geometric primitives — `detect_helmets.py` lines 45–62 -/

/-- An axis-aligned box in `[x1, y1, x2, y2]` convention (integer pixel
coordinates, as produced by the `int(...)` casts in `detect_helmets.py`). -/
structure Box where
  x1 : Int
  y1 : Int
  x2 : Int
  y2 : Int
deriving DecidableEq, Repr

/-- The epsilon `1e-9` added to the union area in `iou_box`. -/
def eps : ℚ := 1 / 1000000000

/-- `iou_box(a, b)` from `detect_helmets.py` lines 45–58: intersection over
union of two `[x1,y1,x2,y2]` boxes, returning `0.0` when the intersection is
empty, with areas clamped by `max(0, ·)` and `1e-9` added to the union. -/
def iou_box (a b : Box) : ℚ :=
  let inter_x1 := max a.x1 b.x1
  let inter_y1 := max a.y1 b.y1
  let inter_x2 := min a.x2 b.x2
  let inter_y2 := min a.y2 b.y2
  if inter_x2 ≤ inter_x1 ∨ inter_y2 ≤ inter_y1 then 0
  else
    let inter_area : ℚ := ((inter_x2 - inter_x1) * (inter_y2 - inter_y1) : Int)
    let a_area : ℚ := ((max 0 (a.x2 - a.x1)) * (max 0 (a.y2 - a.y1)) : Int)
    let b_area : ℚ := ((max 0 (b.x2 - b.x1)) * (max 0 (b.y2 - b.y1)) : Int)
    inter_area / (a_area + b_area - inter_area + eps)

/-- `center(box)` from `detect_helmets.py` lines 60–62. -/
def center (b : Box) : ℚ × ℚ :=
  (((b.x1 : ℚ) + (b.x2 : ℚ)) / 2, ((b.y1 : ℚ) + (b.y2 : ℚ)) / 2)

/-- The area of box `a` as computed inside `iou_box` (clamped at 0). -/
def boxArea (a : Box) : Int :=
  (max 0 (a.x2 - a.x1)) * (max 0 (a.y2 - a.y1))

/-! ## Rider Associator — `detect_helmets.py` lines 157–179 -/

/-- A detection as used by `detect_helmets.py`: an `[x1,y1,x2,y2]` box plus a
confidence (the tuples `(x1, y1, x2, y2, conf)` built at lines 134–136). -/
structure PDet where
  box : Box
  conf : ℚ
deriving DecidableEq, Repr

/-- The per-bike test of the rider heuristic, `detect_helmets.py` line 171:
`iou_box(p, b) > 0.01 or (dx < 1.5*bike_w and dy < 1.5*bike_h)` where
`dx`, `dy` are the absolute center-to-center offsets. -/
def isRiderOf (p b : PDet) : Bool :=
  let pc := center p.box
  let bc := center b.box
  let bike_w : ℚ := ((b.box.x2 - b.box.x1 : Int) : ℚ)
  let bike_h : ℚ := ((b.box.y2 - b.box.y1 : Int) : ℚ)
  let dx := |pc.1 - bc.1|
  let dy := |pc.2 - bc.2|
  decide (iou_box p.box b.box > 1 / 100) ||
    (decide (dx < 3 / 2 * bike_w) && decide (dy < 3 / 2 * bike_h))

/-- The rider-candidate computation of `detect_helmets.py` lines 158–179: a
person is kept when some bike passes `isRiderOf`; afterwards, when the
`--treat-all-persons-as-riders` flag is set AND the candidate list is empty
(the source tests `len(rider_candidates) == 0`, not `len(bikes) == 0`),
every person is taken instead. -/
def riderCandidates (persons bikes : List PDet)
    (treat_all_persons_as_riders : Bool) : List PDet :=
  let rider_candidates := persons.filter (fun p => bikes.any (fun b => isRiderOf p b))
  if treat_all_persons_as_riders && rider_candidates.isEmpty then persons
  else rider_candidates

/-! ## Headgear Classifier — `detect_helmets.py` lines 213–233 -/

/-- Python `int()` truncation toward zero on a rational. -/
def pyInt (q : ℚ) : Int :=
  if 0 ≤ q then q.floor else q.ceil

/-- The head region of `detect_helmets.py` lines 214–219: the box
`(l, t, r, int(t + (b - t) * head_h_frac))`. -/
def headRegion (l t r b : Int) (head_h_frac : ℚ) : Box :=
  ⟨l, t, r, pyInt ((t : ℚ) + ((b : ℚ) - (t : ℚ)) * head_h_frac)⟩

/-- The per-helmet match test of `detect_helmets.py` lines 224–230:
`iou_box(head_bbox, hb) >= helmet_iou_threshold` or the helmet box's center
lies inside the head box (boundary inclusive). -/
def helmetMatches (head_bbox : Box) (helmet_iou_threshold : ℚ) (hb : PDet) : Bool :=
  let ov := iou_box head_bbox hb.box
  let hc := center hb.box
  decide (ov ≥ helmet_iou_threshold) ||
    (decide ((head_bbox.x1 : ℚ) ≤ hc.1) && decide (hc.1 ≤ (head_bbox.x2 : ℚ)) &&
     decide ((head_bbox.y1 : ℚ) ≤ hc.2) && decide (hc.2 ≤ (head_bbox.y2 : ℚ)))

/-- One iteration of the helmet-presence loop of `detect_helmets.py` lines
224–233: a matching helmet detection sets presence and keeps the running
best confidence (`if hconf > helmet_confidence_best`). -/
def headgearStep (head_bbox : Box) (helmet_iou_threshold : ℚ)
    (st : Bool × ℚ) (hb : PDet) : Bool × ℚ :=
  if helmetMatches head_bbox helmet_iou_threshold hb then
    (true, if hb.conf > st.2 then hb.conf else st.2)
  else st

/-- The helmet-presence loop of `detect_helmets.py` lines 222–233: start from
`(helmet_present, helmet_confidence_best) = (False, 0.0)` and fold
`headgearStep` over the frame's helmet boxes. -/
def classifyHeadgear (head_bbox : Box) (helmet_iou_threshold : ℚ)
    (helmet_boxes : List PDet) : Bool × ℚ :=
  helmet_boxes.foldl (headgearStep head_bbox helmet_iou_threshold) (false, 0)

/-! ## Track Debounce State — `detect_helmets.py` lines 102–104, 242–265 -/

/-- Per-track debounce state: `track_last_logged_frame[track_id]` (default
`-9999`) and `track_violation_state[track_id]` (default `False`). -/
structure TrackState where
  last_logged_frame : Int
  violation_state : Bool
deriving DecidableEq, Repr

/-- The `defaultdict` defaults of `detect_helmets.py` lines 103–104. -/
def initTrack : TrackState := ⟨-9999, false⟩

/-- One evaluation of the logging decision of `detect_helmets.py` lines
242–265 for a single track on a single frame.  Returns the new state and
whether a violation row was appended.  On `helmet_present`, only
`track_violation_state` is cleared; `track_last_logged_frame` is untouched. -/
def stepTrack (log_repeat_frames frame_idx : Int) (helmet_present : Bool)
    (st : TrackState) : TrackState × Bool :=
  if helmet_present = false then
    if log_repeat_frames ≤ frame_idx - st.last_logged_frame then
      (⟨frame_idx, true⟩, true)
    else (st, false)
  else (⟨st.last_logged_frame, false⟩, false)

/-- Run the debounce for one track over frames `1..n` (frame indices start at
1, `detect_helmets.py` line 114), with `present f` telling whether headgear
was classified present on frame `f`; collects the frames that logged a row. -/
def runTrack (log_repeat_frames : Int) (present : Int → Bool) : Nat → TrackState × List Int
  | 0 => (initTrack, [])
  | n + 1 =>
    let prev := runTrack log_repeat_frames present n
    let f : Int := (n : Int) + 1
    let step := stepTrack log_repeat_frames f (present f) prev.1
    (step.1, if step.2 then prev.2 ++ [f] else prev.2)

/-! ## DetectionService — `ridesecure/detection/detection_service.py` -/

/-- A bounding box in `[x, y, w, h]` convention, as produced by
`helmet_detector.py` line 94 and `plate_detector.py` line 105. -/
structure BBoxXYWH where
  x : Int
  y : Int
  w : Int
  h : Int
deriving DecidableEq, Repr

/-- A helmet-detector output dict (`helmet_detector.py` lines 93–100):
the fields read by `_identify_violations`. -/
structure HelmetDet where
  violation_type : String
  confidence : ℚ
  bbox : BBoxXYWH
deriving DecidableEq, Repr

/-- A plate-detector output dict (`plate_detector.py` lines 157–164): the
fields read by `_identify_violations` and `_generate_results_summary`;
`pattern_is_valid` is `pattern_match['is_valid']`. -/
structure PlateDet where
  text : String
  confidence : ℚ
  pattern_is_valid : Bool
  bbox : BBoxXYWH
deriving DecidableEq, Repr

/-- The `violation_criteria` sub-config read by `_identify_violations`
(`detection_service.py` lines 69–73, 233, 239, 266). -/
structure ViolationCriteria where
  min_helmet_confidence : ℚ
  min_plate_confidence : ℚ
  require_plate_for_violation : Bool
deriving DecidableEq, Repr

/-- The box center of `_find_nearest_plate` (`detection_service.py` lines
283–286, 292–295): `[x + w // 2, y + h // 2]` with Python floor division. -/
def bboxCenter (b : BBoxXYWH) : Int × Int :=
  (b.x + Int.fdiv b.w 2, b.y + Int.fdiv b.h 2)

/-- Squared Euclidean distance between two integer centers.  The source
(`detection_service.py` lines 298–301) compares `np.sqrt` of this quantity;
square root is strictly monotone on nonnegative reals, so every `<`
comparison of distances in `_find_nearest_plate` is equivalent to the same
comparison of the squared distances embedded here. -/
def distSq (a b : Int × Int) : Int :=
  (a.1 - b.1) ^ 2 + (a.2 - b.2) ^ 2

/-- One iteration of the `_find_nearest_plate` scan (`detection_service.py`
lines 291–305): `none` models the initial `min_distance = inf,
nearest_plate = None` pair, which the first plate always replaces (every
finite distance is `< inf`); afterwards a plate replaces the accumulator
exactly when its distance is strictly smaller. -/
def nearestStep (helmet_center : Int × Int) (acc : Option (Int × PlateDet))
    (plate : PlateDet) : Option (Int × PlateDet) :=
  match acc with
  | none => some (distSq helmet_center (bboxCenter plate.bbox), plate)
  | some (min_distance, nearest) =>
    if distSq helmet_center (bboxCenter plate.bbox) < min_distance then
      some (distSq helmet_center (bboxCenter plate.bbox), plate)
    else some (min_distance, nearest)

/-- `_find_nearest_plate` (`detection_service.py` lines 278–307): linear scan
over the plates, updating on a strict `<` comparison, so the first-seen
plate wins exact ties. -/
def find_nearest_plate (helmet_bbox : BBoxXYWH) (plates : List PlateDet) :
    Option PlateDet :=
  (plates.foldl (nearestStep (bboxCenter helmet_bbox)) none).map Prod.snd

/-- A violation record dict (`detection_service.py` lines 245–254); `idx` is
the `len(violations)` component of the synthetic id. -/
structure ViolationRecord where
  idx : Nat
  timestamp_ms : ℚ
  violation_type : String
  helmet_detection : HelmetDet
  license_plate : Option PlateDet
  confidence_score : ℚ
  location_bbox : BBoxXYWH
  has_license_plate : Bool
deriving DecidableEq, Repr

/-- The `valid_plates` filter of `_identify_violations` (`detection_service.py`
lines 237–241): OCR confidence above the minimum and `is_valid` pattern. -/
def valid_plates_of (crit : ViolationCriteria) (plate_detections : List PlateDet) :
    List PlateDet :=
  plate_detections.filter
    (fun plate => decide (plate.confidence ≥ crit.min_plate_confidence) && plate.pattern_is_valid)

/-- The `helmet_violations` filter of `_identify_violations`
(`detection_service.py` lines 230–234). -/
def helmet_violations_of (crit : ViolationCriteria) (helmet_detections : List HelmetDet) :
    List HelmetDet :=
  helmet_detections.filter
    (fun det => (det.violation_type == "NO_HELMET") &&
      decide (det.confidence ≥ crit.min_helmet_confidence))

/-- Building one record in the loop body of `_identify_violations`
(`detection_service.py` lines 243–263): the base record, then nearest-plate
attachment with averaged confidence.  `find_nearest_plate` returns `none`
exactly when `valid_plates` is empty, which matches the source's
`if valid_plates: ... if nearest_plate:` guards. -/
def mkRecord (timestamp_ms : ℚ) (n : Nat) (valid_plates : List PlateDet)
    (violation : HelmetDet) : ViolationRecord :=
  let base : ViolationRecord :=
    ⟨n, timestamp_ms, "NO_HELMET", violation, none, violation.confidence,
      violation.bbox, !valid_plates.isEmpty⟩
  match find_nearest_plate violation.bbox valid_plates with
  | some nearest_plate =>
    { base with
      license_plate := some nearest_plate
      confidence_score := (violation.confidence + nearest_plate.confidence) / 2 }
  | none => base

/-- One iteration of the `_identify_violations` loop (`detection_service.py`
lines 243–271): build the record, then either skip it
(`require_plate_for_violation` set and no plate attached) or append it. -/
def identifyStep (crit : ViolationCriteria) (timestamp_ms : ℚ)
    (valid_plates : List PlateDet) (violations : List ViolationRecord)
    (violation : HelmetDet) : List ViolationRecord :=
  let violation_record := mkRecord timestamp_ms violations.length valid_plates violation
  if crit.require_plate_for_violation && violation_record.license_plate.isNone then
    violations
  else violations ++ [violation_record]

/-- `_identify_violations` (`detection_service.py` lines 223–276): for each
filtered helmet violation, build a record, attach the nearest valid plate,
and drop the record when `require_plate_for_violation` is set and no plate
was attached. -/
def identify_violations (crit : ViolationCriteria)
    (helmet_detections : List HelmetDet) (plate_detections : List PlateDet)
    (timestamp_ms : ℚ) : List ViolationRecord :=
  (helmet_violations_of crit helmet_detections).foldl
    (identifyStep crit timestamp_ms (valid_plates_of crit plate_detections))
    []

/-! ## Service construction — `detection_service.py` lines 28–74,
`plate_detector.py` lines 24–39 -/

/-- The configuration values consumed by a `DetectionService`
(`_get_default_config`, `detection_service.py` lines 55–74). -/
structure ServiceConfig where
  helmet_threshold : ℚ
  plate_threshold : ℚ
  criteria : ViolationCriteria
  ocr_languages : List String
deriving DecidableEq, Repr

/-- The state `DetectionService.__init__` leaves behind: the stored config,
the `PlateDetector`'s fixed pattern-name table (`plate_detector.py` lines
33–37) and the zeroed `stats` dict (`detection_service.py` lines 46–51). -/
structure ServiceState where
  config : ServiceConfig
  plate_pattern_names : List String
  total_frames_processed : Nat
  violations_detected : Nat
  plates_detected : Nat
  processing_time_ms : List ℚ
deriving DecidableEq, Repr

/-- `True` exactly on `Except.ok`. -/
def exceptIsOk {ε α : Type} : Except ε α → Bool
  | Except.ok _ => true
  | Except.error _ => false

/-- `DetectionService.__init__` (`detection_service.py` lines 28–53): stores
the config, constructs the two detectors (the `PlateDetector` constructor,
`plate_detector.py` lines 24–39, only records languages and the three
hard-coded patterns) and zeroes the stats.  The `Except` codomain records
that Python construction could raise; the body contains no validation and no
`raise`, so the result is always `ok`. -/
def detectionServiceInit (config : ServiceConfig) : Except String ServiceState :=
  Except.ok ⟨config, ["india_old", "india_new", "standard"], 0, 0, 0, []⟩

/-! ## Session summary — `detection_service.py` lines 355–385 -/

/-- The numeric fields of `_generate_results_summary`. -/
structure SummaryNumbers where
  duration_seconds : ℚ
  total_violations : Nat
  violations_with_plates : Nat
  unique_plates : Nat
  violation_rate_per_minute : ℚ
  avg_processing_time_ms : ℚ
  processing_fps : ℚ
  total_processing_time_seconds : ℚ
deriving DecidableEq, Repr

/-- Python's `/` on floats: raises `ZeroDivisionError` when the divisor is
zero. -/
def pyDiv (a b : ℚ) : Except String ℚ :=
  if b = 0 then Except.error "ZeroDivisionError" else Except.ok (a / b)

/-- `_generate_results_summary` (`detection_service.py` lines 355–385),
parametrised by the accumulated `stats['processing_time_ms']` list.
`duration_seconds = total_frames / fps` (line 358, unguarded division);
`avg = np.mean(times) if times else 0` (line 359; the empty list is guarded
by truthiness); `violation_rate_per_minute = len(violations) /
(duration_seconds / 60)` (line 376, unguarded); `processing_fps =
1000 / avg if avg > 0 else 0` (line 380, guarded). -/
def generate_results_summary (violations : List ViolationRecord) (fps : ℚ)
    (total_frames : Nat) (processing_time_ms : List ℚ) :
    Except String SummaryNumbers :=
  match pyDiv (total_frames : ℚ) fps with
  | Except.error e => Except.error e
  | Except.ok duration_seconds =>
    let avg_processing_time : ℚ :=
      if processing_time_ms.isEmpty then 0
      else processing_time_ms.sum / (processing_time_ms.length : ℚ)
    match pyDiv (violations.length : ℚ) (duration_seconds / 60) with
    | Except.error e => Except.error e
    | Except.ok violation_rate =>
      Except.ok
        ⟨duration_seconds,
         violations.length,
         (violations.filter (fun v => v.license_plate.isSome)).length,
         ((violations.filterMap (fun v => v.license_plate.map PlateDet.text)).dedup).length,
         violation_rate,
         avg_processing_time,
         if 0 < avg_processing_time then 1000 / avg_processing_time else 0,
         processing_time_ms.sum / 1000⟩

/-! ## Plate text cleaning and pattern validation — `plate_detector.py`
lines 33–37, 200–225 -/

/-- ASCII uppercase letter test (the regex class `[A-Z]`). -/
def isUpperAZ (c : Char) : Bool := decide ('A' ≤ c) && decide (c ≤ 'Z')

/-- ASCII digit test (the regex class `[0-9]`). -/
def isDigit09 (c : Char) : Bool := decide ('0' ≤ c) && decide (c ≤ '9')

/-- Python's regex class `\s` (ASCII portion relevant here). -/
def pySpace (c : Char) : Bool :=
  decide (c = ' ') || decide (c = '\t') || decide (c = '\n') ||
    decide (c = '\r') || decide (c = '\x0b') || decide (c = '\x0c')

/-- The ambiguous-glyph substitutions of `clean_plate_text`
(`plate_detector.py` lines 206–209): O→0, I→1, S→5, G→6. -/
def substOCR (c : Char) : Char :=
  if c = 'O' then '0'
  else if c = 'I' then '1'
  else if c = 'S' then '5'
  else if c = 'G' then '6'
  else c

/-- `clean_plate_text` (`plate_detector.py` lines 200–211): uppercase, drop
every character outside `[A-Z0-9]` (`re.sub(r'[^A-Z0-9]', '', ...)`), then
apply the four ambiguous-glyph substitutions. -/
def clean_plate_text (text : List Char) : List Char :=
  (((text.map Char.toUpper).filter (fun c => isUpperAZ c || isDigit09 c)).map substOCR)

/-- Body of the `india_old` regex `[A-Z]{2}[0-9]{2}[A-Z]{2}[0-9]{4}`
(`plate_detector.py` line 34). -/
def matchIndiaOldCore (s : List Char) : Bool :=
  match s with
  | [a, b, c, d, e, f, g, h, i, j] =>
    isUpperAZ a && isUpperAZ b && isDigit09 c && isDigit09 d &&
    isUpperAZ e && isUpperAZ f &&
    isDigit09 g && isDigit09 h && isDigit09 i && isDigit09 j
  | _ => false

/-- Body of the `india_new` regex `[A-Z]{2}[0-9]{2}[A-Z]{1,2}[0-9]{4}`
(`plate_detector.py` line 35): either one or two letters in the middle. -/
def matchIndiaNewCore (s : List Char) : Bool :=
  match s with
  | [a, b, c, d, e, f, g, h, i] =>
    isUpperAZ a && isUpperAZ b && isDigit09 c && isDigit09 d &&
    isUpperAZ e &&
    isDigit09 f && isDigit09 g && isDigit09 h && isDigit09 i
  | [a, b, c, d, e, f, g, h, i, j] =>
    isUpperAZ a && isUpperAZ b && isDigit09 c && isDigit09 d &&
    isUpperAZ e && isUpperAZ f &&
    isDigit09 g && isDigit09 h && isDigit09 i && isDigit09 j
  | _ => false

/-- Body of the `standard` regex `[A-Z0-9\-\s]+` (`plate_detector.py`
line 36): one or more characters from the class. -/
def matchStandardCore (s : List Char) : Bool :=
  !s.isEmpty && s.all (fun c => isUpperAZ c || isDigit09 c || decide (c = '-') || pySpace c)

/-- `re.match` of a `^body$` pattern: Python's `$` also matches just before a
single trailing newline. -/
def pyFullMatch (core : List Char → Bool) (s : List Char) : Bool :=
  core s ||
    (match s.getLast? with
     | some c => decide (c = '\n') && core s.dropLast
     | none => false)

/-- The dict returned by `validate_plate_pattern` (`plate_detector.py`
lines 213–225). -/
structure PatternResult where
  india_old : Bool
  india_new : Bool
  standard : Bool
  is_valid : Bool
  confidence_boost : ℚ
deriving DecidableEq, Repr

/-- `validate_plate_pattern` (`plate_detector.py` lines 213–225): match the
three patterns; `is_valid = any(...)`; `confidence_boost = 0.2` when valid,
`-0.1` otherwise. -/
def validate_plate_pattern (text : List Char) : PatternResult :=
  let india_old := pyFullMatch matchIndiaOldCore text
  let india_new := pyFullMatch matchIndiaNewCore text
  let standard := pyFullMatch matchStandardCore text
  let is_valid := india_old || india_new || standard
  ⟨india_old, india_new, standard, is_valid, if is_valid then 1 / 5 else -(1 / 10)⟩

end RideSecure

namespace RideSecure

/-- Symmetry of `iou_box` (helper for claim C6). -/
theorem iou_box_comm (a b : Box) : iou_box a b = iou_box b a := by
  simp only [iou_box]
  rw [max_comm a.x1 b.x1, max_comm a.y1 b.y1, min_comm a.x2 b.x2, min_comm a.y2 b.y2]
  split
  · rfl
  · ring_nf

/-- Boxes with empty intersection (the guard of `iou_box`) yield 0 (helper
for claims C6 and C3). -/
theorem iou_box_empty_inter (a b : Box)
    (h : min a.x2 b.x2 ≤ max a.x1 b.x1 ∨ min a.y2 b.y2 ≤ max a.y1 b.y1) :
    iou_box a b = 0 := by
  simp only [iou_box]
  rw [if_pos h]

/-- A box with nonpositive width or height yields `iou_box = 0` against any
other box (helper for claim C6). -/
theorem iou_box_degenerate_left (a b : Box) (h : a.x2 ≤ a.x1 ∨ a.y2 ≤ a.y1) :
    iou_box a b = 0 := by
  simp only [iou_box]
  rcases h with h | h
  · have : min a.x2 b.x2 ≤ max a.x1 b.x1 :=
      le_trans (min_le_left _ _) (le_trans h (le_max_left _ _))
    simp [this]
  · have : min a.y2 b.y2 ≤ max a.y1 b.y1 :=
      le_trans (min_le_left _ _) (le_trans h (le_max_left _ _))
    simp [this]

/-- `iou_box` never returns a negative value (helper for claim C6). -/
theorem iou_box_nonneg (a b : Box) : 0 ≤ iou_box a b := by
  simp only [iou_box]
  split
  · exact le_refl 0
  · rename_i hcond
    push_neg at hcond
    obtain ⟨hx, hy⟩ := hcond
    have hix : (0 : Int) < min a.x2 b.x2 - max a.x1 b.x1 := by omega
    have hiy : (0 : Int) < min a.y2 b.y2 - max a.y1 b.y1 := by omega
    have hinter : (0 : Int) ≤ (min a.x2 b.x2 - max a.x1 b.x1) * (min a.y2 b.y2 - max a.y1 b.y1) :=
      le_of_lt (mul_pos hix hiy)
    have hia : (min a.x2 b.x2 - max a.x1 b.x1) * (min a.y2 b.y2 - max a.y1 b.y1)
        ≤ (max 0 (a.x2 - a.x1)) * (max 0 (a.y2 - a.y1)) := by
      apply mul_le_mul
      · rw [le_max_iff]; right; omega
      · rw [le_max_iff]; right; omega
      · omega
      · exact le_max_left _ _
    apply div_nonneg
    · exact_mod_cast hinter
    · have hb0 : (0 : Int) ≤ (max 0 (b.x2 - b.x1)) * (max 0 (b.y2 - b.y1)) :=
        mul_nonneg (le_max_left _ _) (le_max_left _ _)
      have heps : (0 : ℚ) < eps := by norm_num [eps]
      have hZ : (0 : Int) ≤ (max 0 (a.x2 - a.x1)) * (max 0 (a.y2 - a.y1))
          + (max 0 (b.x2 - b.x1)) * (max 0 (b.y2 - b.y1))
          - (min a.x2 b.x2 - max a.x1 b.x1) * (min a.y2 b.y2 - max a.y1 b.y1) := by
        omega
      have hc : (0 : ℚ) ≤ (((max 0 (a.x2 - a.x1)) * (max 0 (a.y2 - a.y1)) : Int) : ℚ)
          + (((max 0 (b.x2 - b.x1)) * (max 0 (b.y2 - b.y1)) : Int) : ℚ)
          - (((min a.x2 b.x2 - max a.x1 b.x1) * (min a.y2 b.y2 - max a.y1 b.y1) : Int) : ℚ) := by
        exact_mod_cast hZ
      linarith

/-- On a positive-area box, `iou_box` of the box with itself is
`area / (area + 1e-9)` (helper for claim C6). -/
theorem iou_box_self (a : Box) (hx : a.x1 < a.x2) (hy : a.y1 < a.y2) :
    iou_box a a = ((boxArea a : Int) : ℚ) / (((boxArea a : Int) : ℚ) + eps) := by
  simp only [iou_box, boxArea, min_self, max_self]
  rw [if_neg (by omega : ¬((a.x2 : Int) ≤ a.x1 ∨ (a.y2 : Int) ≤ a.y1))]
  have h2 : max (0 : Int) (a.x2 - a.x1) = a.x2 - a.x1 := by omega
  have h3 : max (0 : Int) (a.y2 - a.y1) = a.y2 - a.y1 := by omega
  rw [h2, h3]
  ring_nf

/-- `A / (A + eps) < 1` for positive `A` (helper for claim C6). -/
theorem ratio_lt_one {A : ℚ} (hA : 0 < A) : A / (A + eps) < 1 := by
  have he : (0 : ℚ) < eps := by norm_num [eps]
  rw [div_lt_one (by linarith)]
  linarith

/-- `1 - eps ≤ A / (A + eps)` once `1 ≤ A` (helper for claim C6). -/
theorem one_sub_eps_le_frac {A : ℚ} (hA : 1 ≤ A) : 1 - eps ≤ A / (A + eps) := by
  have he : (0 : ℚ) < eps := by norm_num [eps]
  have he1 : eps ≤ 1 := by norm_num [eps]
  rw [le_div_iff₀ (by linarith)]
  nlinarith

/-- C6, counterexample: the claim asserts `overlapRatio(a,a) == 1.0` exactly
for every positive-area box `a`; on the unit box the source computes
`1 / (1 + 1e-9)`, which is not `1.0`. -/
theorem C6_counterexample :
    (Box.mk 0 0 1 1).x1 < (Box.mk 0 0 1 1).x2
    ∧ (Box.mk 0 0 1 1).y1 < (Box.mk 0 0 1 1).y2
    ∧ iou_box (Box.mk 0 0 1 1) (Box.mk 0 0 1 1) ≠ 1 := by
  refine ⟨by decide, by decide, ?_⟩
  rw [iou_box_self (Box.mk 0 0 1 1) (by decide) (by decide)]
  norm_num [boxArea, eps]

/-- C6 (amended): `iou_box` is symmetric; on a positive-area box `a`,
`iou_box a a` equals `area / (area + 1e-9)` — strictly below `1` but at
least `1 - 1e-9`, not exactly `1.0`; it returns `0` on boxes with empty
intersection; it returns `0` when a box has nonpositive width or height
(zero-area treatment); and it never returns a negative value (total
function, so it never raises; over `ℚ` no NaN exists). -/
theorem C6_overlap_ratio_properties :
    (∀ a b : Box, iou_box a b = iou_box b a)
    ∧ (∀ a : Box, a.x1 < a.x2 → a.y1 < a.y2 →
        iou_box a a = ((boxArea a : Int) : ℚ) / (((boxArea a : Int) : ℚ) + eps)
        ∧ iou_box a a < 1 ∧ 1 - eps ≤ iou_box a a)
    ∧ (∀ a b : Box, min a.x2 b.x2 ≤ max a.x1 b.x1 ∨ min a.y2 b.y2 ≤ max a.y1 b.y1 →
        iou_box a b = 0)
    ∧ (∀ a b : Box, a.x2 ≤ a.x1 ∨ a.y2 ≤ a.y1 → iou_box a b = 0)
    ∧ (∀ a b : Box, 0 ≤ iou_box a b) := by
  refine ⟨iou_box_comm, ?_, ?_, iou_box_degenerate_left, iou_box_nonneg⟩
  · intro a hx hy
    have hA : (1 : Int) ≤ boxArea a := by
      simp only [boxArea]
      have h2 : max (0 : Int) (a.x2 - a.x1) = a.x2 - a.x1 := by omega
      have h3 : max (0 : Int) (a.y2 - a.y1) = a.y2 - a.y1 := by omega
      rw [h2, h3]
      nlinarith
    have hAQ : (1 : ℚ) ≤ ((boxArea a : Int) : ℚ) := by exact_mod_cast hA
    refine ⟨iou_box_self a hx hy, ?_, ?_⟩
    · rw [iou_box_self a hx hy]
      exact ratio_lt_one (by linarith)
    · rw [iou_box_self a hx hy]
      exact one_sub_eps_le_frac hAQ
  · exact iou_box_empty_inter

/-- Witness for `C6_overlap_ratio_properties` on concrete boxes: the 2×3 box
at the origin (positive area), two horizontally separated boxes (empty
intersection), and a negative-width box. -/
theorem C6_overlap_ratio_properties_witness :
    (iou_box (Box.mk 0 0 2 3) (Box.mk 0 0 2 3) < 1
      ∧ 1 - eps ≤ iou_box (Box.mk 0 0 2 3) (Box.mk 0 0 2 3))
    ∧ iou_box (Box.mk 0 0 2 3) (Box.mk 5 0 7 3) = 0
    ∧ iou_box (Box.mk 4 4 2 2) (Box.mk 0 0 9 9) = 0 :=
  ⟨⟨(C6_overlap_ratio_properties.2.1 (Box.mk 0 0 2 3) (by decide) (by decide)).2.1,
    (C6_overlap_ratio_properties.2.1 (Box.mk 0 0 2 3) (by decide) (by decide)).2.2⟩,
   C6_overlap_ratio_properties.2.2.1 (Box.mk 0 0 2 3) (Box.mk 5 0 7 3) (by decide),
   C6_overlap_ratio_properties.2.2.2.1 (Box.mk 4 4 2 2) (Box.mk 0 0 9 9) (by decide)⟩

/-- Membership in the rider filter (helper for claim C3). -/
theorem mem_rider_filter (persons bikes : List PDet) (p : PDet) :
    p ∈ persons.filter (fun q => bikes.any (fun b => isRiderOf q b)) ↔
      p ∈ persons ∧ ∃ b ∈ bikes, isRiderOf p b = true := by
  simp [List.mem_filter, List.any_eq_true]

/-- C3, counterexample: the claim states the treat-all fallback fires only
when the frame contains no vehicle detections at all; the source fires it
whenever `len(rider_candidates) == 0` (`detect_helmets.py` line 178).  With
one far-away bike present and the flag set, the person is still classified a
rider even though a vehicle detection exists and no association holds. -/
theorem C3_counterexample :
    (⟨⟨0, 0, 10, 10⟩, 1⟩ : PDet) ∈
      riderCandidates [⟨⟨0, 0, 10, 10⟩, 1⟩] [⟨⟨1000, 1000, 1100, 1100⟩, 1⟩] true
    ∧ isRiderOf (⟨⟨0, 0, 10, 10⟩, 1⟩ : PDet) (⟨⟨1000, 1000, 1100, 1100⟩, 1⟩ : PDet) = false
    ∧ ([(⟨⟨1000, 1000, 1100, 1100⟩, 1⟩ : PDet)] : List PDet) ≠ [] := by
  have hno : isRiderOf (⟨⟨0, 0, 10, 10⟩, 1⟩ : PDet)
      (⟨⟨1000, 1000, 1100, 1100⟩, 1⟩ : PDet) = false := by
    have h0 : iou_box (⟨0, 0, 10, 10⟩ : Box) (⟨1000, 1000, 1100, 1100⟩ : Box) = 0 := by
      apply iou_box_empty_inter
      left
      decide
    simp only [isRiderOf, center, h0]
    norm_num
  refine ⟨?_, hno, by simp⟩
  simp [riderCandidates, hno]

/-- C3 (amended): a person is a rider iff either some vehicle detection
passes the overlap-or-proximity test, or the treat-all flag is set and NO
person in the frame passes the test for any vehicle (in which case every
person is a rider) — the fallback keys on the emptiness of the candidate
list, not on the absence of vehicle detections. -/
theorem C3_rider_classification (persons bikes : List PDet) (flag : Bool) (p : PDet) :
    p ∈ riderCandidates persons bikes flag ↔
      (p ∈ persons ∧ ∃ b ∈ bikes, isRiderOf p b = true)
      ∨ (flag = true ∧ (∀ q ∈ persons, ∀ b ∈ bikes, isRiderOf q b = false) ∧ p ∈ persons) := by
  simp only [riderCandidates]
  split
  · rename_i h
    rw [Bool.and_eq_true, List.isEmpty_iff, List.filter_eq_nil_iff] at h
    obtain ⟨hflag, hempty⟩ := h
    constructor
    · intro hp
      right
      refine ⟨hflag, ?_, hp⟩
      intro q hq b hb
      have h2 := hempty q hq
      simp only [List.any_eq_true, not_exists] at h2
      rcases hr : isRiderOf q b with _ | _
      · rfl
      · exact absurd ⟨hb, hr⟩ (h2 b)
    · rintro (⟨hp, _⟩ | ⟨_, _, hp⟩) <;> exact hp
  · rename_i h
    rw [Bool.and_eq_true] at h
    rw [mem_rider_filter]
    constructor
    · exact Or.inl
    · rintro (hleft | ⟨hflag, hall, hp⟩)
      · exact hleft
      · exfalso
        apply h
        refine ⟨hflag, ?_⟩
        rw [List.isEmpty_iff, List.filter_eq_nil_iff]
        intro q hq hany
        rw [List.any_eq_true] at hany
        obtain ⟨b, hb, hrb⟩ := hany
        simp [hall q hq b hb] at hrb

/-- Rewrites the source's `if hconf > best then hconf else best` as `max`
(helper for claim C9). -/
theorem if_gt_eq_max (a b : ℚ) : (if b > a then b else a) = max a b := by
  rcases le_or_lt b a with h | h
  · rw [if_neg (not_lt.mpr h), max_eq_left h]
  · rw [if_pos h, max_eq_right (le_of_lt h)]

/-- The headgear fold computes `any`-presence plus a running max over the
matching detections' confidences (helper for claim C9). -/
theorem headgear_foldl (head_bbox : Box) (thr : ℚ) (l : List PDet) (st : Bool × ℚ) :
    l.foldl (headgearStep head_bbox thr) st =
      (st.1 || l.any (helmetMatches head_bbox thr),
       (l.filter (helmetMatches head_bbox thr)).foldl (fun c hb => max c hb.conf) st.2) := by
  induction l generalizing st with
  | nil => simp
  | cons hd tl ih =>
    by_cases hm : helmetMatches head_bbox thr hd = true
    · simp only [List.foldl_cons, List.any_cons, List.filter_cons, hm, if_pos,
        headgearStep, if_true]
      rw [if_gt_eq_max st.2 hd.conf, ih]
      simp
    · simp only [List.foldl_cons, List.any_cons, List.filter_cons, headgearStep, hm]
      rw [if_neg (by simp [hm]), ih]
      simp [hm]

/-- The max-fold dominates its start value and every element (helper for
claim C9). -/
theorem maxfold_bounds (l : List PDet) (c : ℚ) :
    c ≤ l.foldl (fun c hb => max c hb.conf) c
    ∧ ∀ hb ∈ l, hb.conf ≤ l.foldl (fun c hb => max c hb.conf) c := by
  induction l generalizing c with
  | nil => simp
  | cons hd tl ih =>
    obtain ⟨h1, h2⟩ := ih (max c hd.conf)
    refine ⟨le_trans (le_max_left _ _) h1, ?_⟩
    intro hb hmem
    rcases List.mem_cons.mp hmem with rfl | hmem
    · exact le_trans (le_max_right _ _) h1
    · exact h2 hb hmem

/-- The max-fold returns its start value or some element's confidence
(helper for claim C9). -/
theorem maxfold_attained (l : List PDet) (c : ℚ) :
    l.foldl (fun c hb => max c hb.conf) c = c
    ∨ ∃ hb ∈ l, l.foldl (fun c hb => max c hb.conf) c = hb.conf := by
  induction l generalizing c with
  | nil => simp
  | cons hd tl ih =>
    rcases ih (max c hd.conf) with h | ⟨hb, hmem, h⟩
    · rcases max_choice c hd.conf with hc | hc
      · left; simp only [List.foldl_cons]; rw [h, hc]
      · right; exact ⟨hd, List.mem_cons_self hd tl, by simp only [List.foldl_cons]; rw [h, hc]⟩
    · right; exact ⟨hb, List.mem_cons_of_mem hd hmem, by simpa using h⟩

/-- C9: headgear is classified present iff some helmet detection overlaps the
head region at least at the threshold or has its center inside the head
region (boundary inclusive); when present and all detector confidences are
nonnegative, the fused confidence is attained by a matching detection and
dominates every matching detection's confidence (the maximum); when no
detection matches, the result is absent with confidence 0. -/
theorem C9_headgear_classification (head_bbox : Box) (thr : ℚ) (helmet_boxes : List PDet) :
    ((classifyHeadgear head_bbox thr helmet_boxes).1 = true ↔
      ∃ hb ∈ helmet_boxes, helmetMatches head_bbox thr hb = true)
    ∧ ((∀ hb ∈ helmet_boxes, 0 ≤ hb.conf) →
        (classifyHeadgear head_bbox thr helmet_boxes).1 = true →
        ∃ hb ∈ helmet_boxes, helmetMatches head_bbox thr hb = true
          ∧ (classifyHeadgear head_bbox thr helmet_boxes).2 = hb.conf
          ∧ ∀ hb' ∈ helmet_boxes, helmetMatches head_bbox thr hb' = true →
              hb'.conf ≤ (classifyHeadgear head_bbox thr helmet_boxes).2)
    ∧ ((classifyHeadgear head_bbox thr helmet_boxes).1 = false →
        (classifyHeadgear head_bbox thr helmet_boxes).2 = 0) := by
  have hfold := headgear_foldl head_bbox thr helmet_boxes (false, 0)
  rw [classifyHeadgear] at *
  rw [hfold]
  simp only [Bool.false_or]
  refine ⟨by simp [List.any_eq_true], ?_, ?_⟩
  · intro hnn hany
    simp only [List.any_eq_true] at hany
    obtain ⟨hb0, hmem0, hm0⟩ := hany
    have hbounds := maxfold_bounds (helmet_boxes.filter (helmetMatches head_bbox thr)) 0
    rcases maxfold_attained (helmet_boxes.filter (helmetMatches head_bbox thr)) 0 with
      hzero | ⟨hb, hmem, hval⟩
    · refine ⟨hb0, hmem0, hm0, ?_, ?_⟩
      · rw [hzero]
        have hle := hbounds.2 hb0 (List.mem_filter.mpr ⟨hmem0, hm0⟩)
        rw [hzero] at hle
        exact le_antisymm (hnn hb0 hmem0) hle |>.symm ▸ rfl
      · intro hb' hmem' hm'
        exact hbounds.2 hb' (List.mem_filter.mpr ⟨hmem', hm'⟩)
    · obtain ⟨hmem', hm'⟩ := List.mem_filter.mp hmem
      refine ⟨hb, hmem', hm', hval, ?_⟩
      intro hb' hmem'' hm''
      exact hbounds.2 hb' (List.mem_filter.mpr ⟨hmem'', hm''⟩)
  · intro hnone
    simp only [List.any_eq_false] at hnone
    have hnil : helmet_boxes.filter (helmetMatches head_bbox thr) = [] := by
      rw [List.filter_eq_nil_iff]
      intro a ha
      simp [hnone a ha]
    rw [hnil]
    rfl

/-- Witness for `C9_headgear_classification`: a helmet box centered inside
the head region, with confidence 1 and threshold 1/10. -/
theorem C9_headgear_classification_witness :
    (∀ hb ∈ [(⟨⟨2, 2, 4, 4⟩, 1⟩ : PDet)], 0 ≤ hb.conf)
    ∧ (classifyHeadgear ⟨0, 0, 10, 10⟩ (1 / 10) [⟨⟨2, 2, 4, 4⟩, 1⟩]).1 = true
    ∧ ∃ hb ∈ [(⟨⟨2, 2, 4, 4⟩, 1⟩ : PDet)],
        helmetMatches ⟨0, 0, 10, 10⟩ (1 / 10) hb = true
        ∧ (classifyHeadgear ⟨0, 0, 10, 10⟩ (1 / 10) [⟨⟨2, 2, 4, 4⟩, 1⟩]).2 = hb.conf
        ∧ ∀ hb' ∈ [(⟨⟨2, 2, 4, 4⟩, 1⟩ : PDet)],
            helmetMatches ⟨0, 0, 10, 10⟩ (1 / 10) hb' = true →
            hb'.conf ≤ (classifyHeadgear ⟨0, 0, 10, 10⟩ (1 / 10) [⟨⟨2, 2, 4, 4⟩, 1⟩]).2 := by
  have hnn : ∀ hb ∈ [(⟨⟨2, 2, 4, 4⟩, 1⟩ : PDet)], 0 ≤ hb.conf := by
    intro hb hmem
    simp only [List.mem_singleton] at hmem
    rw [hmem]
    norm_num
  have hmatch : helmetMatches ⟨0, 0, 10, 10⟩ (1 / 10) (⟨⟨2, 2, 4, 4⟩, 1⟩ : PDet) = true := by
    simp only [helmetMatches, center]
    norm_num
  have hpresent : (classifyHeadgear ⟨0, 0, 10, 10⟩ (1 / 10) [⟨⟨2, 2, 4, 4⟩, 1⟩]).1 = true := by
    exact (C9_headgear_classification ⟨0, 0, 10, 10⟩ (1 / 10) [⟨⟨2, 2, 4, 4⟩, 1⟩]).1.mpr
      ⟨⟨⟨2, 2, 4, 4⟩, 1⟩, List.mem_singleton_self _, hmatch⟩
  exact ⟨hnn, hpresent,
    (C9_headgear_classification ⟨0, 0, 10, 10⟩ (1 / 10) [⟨⟨2, 2, 4, 4⟩, 1⟩]).2.1 hnn hpresent⟩

/-- C1, counterexample: the claim asserts that after a violation emission a
compliant frame resets the debounce so that a following absence re-emits
immediately.  In the source (`detect_helmets.py` lines 242–265) the
`helmet_present` branch only clears `track_violation_state`;
`track_last_logged_frame` is untouched, so with interval 30 the sequence
absent@1 (emits), present@2, absent@3 produces NO emission at frame 3. -/
theorem C1_counterexample :
    (stepTrack 30 1 false initTrack).2 = true
    ∧ (stepTrack 30 2 true (stepTrack 30 1 false initTrack).1).2 = false
    ∧ (stepTrack 30 3 false
        (stepTrack 30 2 true (stepTrack 30 1 false initTrack).1).1).2 = false := by
  decide

/-- C1 (amended): becoming compliant does not reset the debounce timer — a
compliant frame leaves `track_last_logged_frame` unchanged, and a subsequent
absence emits a fresh record exactly when the re-log interval since the last
emission has elapsed, regardless of any intervening compliant state. -/
theorem C1_compliance_does_not_reset_debounce :
    ∀ (interval frame_idx : Int) (st : TrackState),
      ((stepTrack interval frame_idx false st).2 =
        decide (interval ≤ frame_idx - st.last_logged_frame))
      ∧ (stepTrack interval frame_idx true st).1.last_logged_frame =
          st.last_logged_frame := by
  intro interval frame_idx st
  constructor
  · by_cases h : interval ≤ frame_idx - st.last_logged_frame
    · simp [stepTrack, h]
    · simp [stepTrack, h]
  · simp [stepTrack]

/-- C7: with `log_repeat_frames = 30` and headgear absent on every frame, a
track running from frame 1 to frame 100 logs exactly at frames
{1, 31, 61, 91}; in general, after an emission at frame `f`, an absence at
frame `g` within the interval (`g - f < interval`) emits nothing and leaves
the state unchanged, while the first absence with the interval elapsed
(`interval ≤ g - f`) emits exactly one more record and re-stamps the
state. -/
theorem C7_relog_schedule :
    (runTrack 30 (fun _ => false) 100).2 = [1, 31, 61, 91]
    ∧ (∀ (interval f g : Int), g - f < interval →
        stepTrack interval g false ⟨f, true⟩ = (⟨f, true⟩, false))
    ∧ (∀ (interval f g : Int), interval ≤ g - f →
        stepTrack interval g false ⟨f, true⟩ = (⟨g, true⟩, true)) := by
  refine ⟨?_, ?_, ?_⟩
  · set_option maxRecDepth 10000 in decide
  · intro interval f g h
    simp [stepTrack, not_le.mpr h]
  · intro interval f g h
    simp [stepTrack, h]

/-- Witness for `C7_relog_schedule`: interval 30, last emission at frame 1,
absences at frames 5 (suppressed) and 31 (re-emits). -/
theorem C7_relog_schedule_witness :
    ((5 : Int) - 1 < 30 ∧ stepTrack 30 5 false ⟨1, true⟩ = (⟨1, true⟩, false))
    ∧ ((30 : Int) ≤ 31 - 1 ∧ stepTrack 30 31 false ⟨1, true⟩ = (⟨31, true⟩, true)) :=
  ⟨⟨by decide, C7_relog_schedule.2.1 30 1 5 (by decide)⟩,
   ⟨by decide, C7_relog_schedule.2.2 30 1 31 (by decide)⟩⟩

/-- An accumulator that already dominates every remaining plate's distance is
returned unchanged by the nearest-plate scan (helper for claim C8). -/
theorem nearest_fold_keep (hc : Int × Int) (ps : List PlateDet) (d : Int) (q : PlateDet)
    (h : ∀ p ∈ ps, d ≤ distSq hc (bboxCenter p.bbox)) :
    ps.foldl (nearestStep hc) (some (d, q)) = some (d, q) := by
  induction ps with
  | nil => rfl
  | cons p tl ih =>
    have hd : ¬ distSq hc (bboxCenter p.bbox) < d :=
      not_lt.mpr (h p (List.mem_cons_self p tl))
    simp only [List.foldl_cons, nearestStep, if_neg hd]
    exact ih (fun r hr => h r (List.mem_cons_of_mem p hr))

/-- A plate strictly closer than the accumulator and everything before it,
and at least as close as everything after it, wins the scan (helper for
claim C8). -/
theorem nearest_fold_wins (hc : Int × Int) (q : PlateDet) (l2 : List PlateDet)
    (hafter : ∀ r ∈ l2, distSq hc (bboxCenter q.bbox) ≤ distSq hc (bboxCenter r.bbox)) :
    ∀ (l1 : List PlateDet) (d0 : Int) (q0 : PlateDet),
      distSq hc (bboxCenter q.bbox) < d0 →
      (∀ r ∈ l1, distSq hc (bboxCenter q.bbox) < distSq hc (bboxCenter r.bbox)) →
      (l1 ++ q :: l2).foldl (nearestStep hc) (some (d0, q0)) =
        some (distSq hc (bboxCenter q.bbox), q) := by
  intro l1
  induction l1 with
  | nil =>
    intro d0 q0 hlt _
    simp only [List.nil_append, List.foldl_cons, nearestStep, if_pos hlt]
    exact nearest_fold_keep hc l2 _ q hafter
  | cons r tl ih =>
    intro d0 q0 hlt hbefore
    have hrq : distSq hc (bboxCenter q.bbox) < distSq hc (bboxCenter r.bbox) :=
      hbefore r (List.mem_cons_self r tl)
    have htl : ∀ s ∈ tl, distSq hc (bboxCenter q.bbox) < distSq hc (bboxCenter s.bbox) :=
      fun s hs => hbefore s (List.mem_cons_of_mem r hs)
    simp only [List.cons_append, List.foldl_cons, nearestStep]
    by_cases hcase : distSq hc (bboxCenter r.bbox) < d0
    · rw [if_pos hcase]
      exact ih _ r hrq htl
    · rw [if_neg hcase]
      exact ih d0 q0 hlt htl

/-- The nearest-plate scan started from a concrete accumulator returns a
minimal entry whose stored distance is its plate's distance (helper for
claim C8). -/
theorem nearest_fold_min (hc : Int × Int) :
    ∀ (ps : List PlateDet) (d : Int) (q : PlateDet),
      ∃ d' q', ps.foldl (nearestStep hc) (some (d, q)) = some (d', q')
        ∧ d' ≤ d ∧ (∀ p ∈ ps, d' ≤ distSq hc (bboxCenter p.bbox))
        ∧ ((q' = q ∧ d' = d) ∨ (q' ∈ ps ∧ d' = distSq hc (bboxCenter q'.bbox))) := by
  intro ps
  induction ps with
  | nil => exact fun d q => ⟨d, q, rfl, le_refl d, by simp, Or.inl ⟨rfl, rfl⟩⟩
  | cons p tl ih =>
    intro d q
    by_cases hcase : distSq hc (bboxCenter p.bbox) < d
    · obtain ⟨d', q', heq, hle, hmin, hatt⟩ := ih (distSq hc (bboxCenter p.bbox)) p
      refine ⟨d', q', ?_, le_trans hle (le_of_lt hcase), ?_, ?_⟩
      · simp only [List.foldl_cons, nearestStep, if_pos hcase]
        exact heq
      · intro r hr
        rcases List.mem_cons.mp hr with rfl | hr
        · exact hle
        · exact hmin r hr
      · rcases hatt with ⟨hq, hd⟩ | ⟨hmem, hval⟩
        · subst hq
          subst hd
          exact Or.inr ⟨List.mem_cons_self _ _, rfl⟩
        · exact Or.inr ⟨List.mem_cons_of_mem p hmem, hval⟩
    · obtain ⟨d', q', heq, hle, hmin, hatt⟩ := ih d q
      refine ⟨d', q', ?_, hle, ?_, ?_⟩
      · simp only [List.foldl_cons, nearestStep, if_neg hcase]
        exact heq
      · intro r hr
        rcases List.mem_cons.mp hr with rfl | hr
        · exact le_trans hle (not_lt.mp hcase)
        · exact hmin r hr
      · rcases hatt with ⟨h1, h2⟩ | ⟨hmem, hval⟩
        · exact Or.inl ⟨h1, h2⟩
        · exact Or.inr ⟨List.mem_cons_of_mem p hmem, hval⟩

/-- The fields of a freshly built record (helper for claims C2 and C8). -/
theorem mkRecord_fields (timestamp_ms : ℚ) (n : Nat) (valid_plates : List PlateDet)
    (violation : HelmetDet) :
    (mkRecord timestamp_ms n valid_plates violation).license_plate =
        find_nearest_plate violation.bbox valid_plates
    ∧ (mkRecord timestamp_ms n valid_plates violation).location_bbox = violation.bbox
    ∧ (mkRecord timestamp_ms n valid_plates violation).helmet_detection = violation := by
  rcases h : find_nearest_plate violation.bbox valid_plates with _ | p <;>
    simp [mkRecord, h]

/-- The fused confidence of a record with an attached plate (helper for
claim C8). -/
theorem mkRecord_confidence (timestamp_ms : ℚ) (n : Nat) (valid_plates : List PlateDet)
    (violation : HelmetDet) (p : PlateDet)
    (h : find_nearest_plate violation.bbox valid_plates = some p) :
    (mkRecord timestamp_ms n valid_plates violation).confidence_score =
      (violation.confidence + p.confidence) / 2 := by
  simp [mkRecord, h]

/-- Every record produced by the `_identify_violations` fold satisfies a
per-record property provable of `mkRecord` alone (helper for claims C2 and
C8). -/
theorem identify_foldl_mem (crit : ViolationCriteria) (ts : ℚ)
    (valid_plates : List PlateDet) (P : ViolationRecord → Prop) :
    ∀ (l : List HelmetDet) (acc : List ViolationRecord),
      (∀ r ∈ acc, P r) →
      (∀ (n : Nat), ∀ v ∈ l, P (mkRecord ts n valid_plates v)) →
      ∀ r ∈ l.foldl (identifyStep crit ts valid_plates) acc, P r := by
  intro l
  induction l with
  | nil => intro acc hacc _ r hr; exact hacc r hr
  | cons v tl ih =>
    intro acc hacc hnew r hr
    simp only [List.foldl_cons] at hr
    refine ih (identifyStep crit ts valid_plates acc v) ?_ ?_ r hr
    · intro r' hr'
      simp only [identifyStep] at hr'
      split at hr'
      · exact hacc r' hr'
      · rcases List.mem_append.mp hr' with h | h
        · exact hacc r' h
        · rw [List.mem_singleton.mp h]
          exact hnew acc.length v (List.mem_cons_self v tl)
    · intro n v' hv'
      exact hnew n v' (List.mem_cons_of_mem v hv')

/-- When plates are required and no valid plate exists, every record is
dropped (helper for claim C8). -/
theorem identify_foldl_empty (crit : ViolationCriteria) (ts : ℚ)
    (hreq : crit.require_plate_for_violation = true) :
    ∀ (l : List HelmetDet) (acc : List ViolationRecord),
      l.foldl (identifyStep crit ts []) acc = acc := by
  intro l
  induction l with
  | nil => intro acc; rfl
  | cons v tl ih =>
    intro acc
    have hnone : (mkRecord ts acc.length [] v).license_plate = none :=
      (mkRecord_fields ts acc.length [] v).1
    simp only [List.foldl_cons, identifyStep, hnone, Option.isNone_none, hreq,
      Bool.and_self, if_pos]
    exact ih acc

/-- C2, counterexample: the claim asserts a plate is attached to at most one
ViolationRecord per frame; in `_identify_violations`
(`detection_service.py` lines 243–270) `valid_plates` is never consumed, so
two helmet violations in one frame both receive the SAME nearest plate.
Records 0 and 1 below both carry the single valid plate. -/
theorem C2_counterexample :
    ((identify_violations ⟨0, 0, true⟩
        [⟨"NO_HELMET", 1, ⟨0, 0, 10, 10⟩⟩, ⟨"NO_HELMET", 1, ⟨100, 0, 10, 10⟩⟩]
        [⟨"MH12AB1234", 1, true, ⟨50, 0, 10, 10⟩⟩] 0).map ViolationRecord.license_plate
      = [some ⟨"MH12AB1234", 1, true, ⟨50, 0, 10, 10⟩⟩,
         some ⟨"MH12AB1234", 1, true, ⟨50, 0, 10, 10⟩⟩])
    ∧ ((identify_violations ⟨0, 0, true⟩
        [⟨"NO_HELMET", 1, ⟨0, 0, 10, 10⟩⟩, ⟨"NO_HELMET", 1, ⟨100, 0, 10, 10⟩⟩]
        [⟨"MH12AB1234", 1, true, ⟨50, 0, 10, 10⟩⟩] 0).map ViolationRecord.idx
      = [0, 1]) := by
  decide

/-- C2 (amended): each emitted ViolationRecord independently carries the
nearest valid plate to its own box (`none` when no valid plate exists); the
same PlateMatch may be attached to several ViolationRecords of one frame —
nearest-wins per record, with no exclusivity. -/
theorem C2_plate_attachment (crit : ViolationCriteria)
    (helmet_detections : List HelmetDet) (plate_detections : List PlateDet)
    (timestamp_ms : ℚ) :
    (identify_violations crit helmet_detections plate_detections timestamp_ms).Forall
      (fun r => r.license_plate =
        find_nearest_plate r.location_bbox (valid_plates_of crit plate_detections)) := by
  rw [List.forall_iff_forall_mem]
  intro r hr
  refine identify_foldl_mem crit timestamp_ms (valid_plates_of crit plate_detections)
    (fun r => r.license_plate =
      find_nearest_plate r.location_bbox (valid_plates_of crit plate_detections))
    (helmet_violations_of crit helmet_detections) [] (by simp) ?_ r hr
  intro n v _
  obtain ⟨h1, h2, _⟩ := mkRecord_fields timestamp_ms n (valid_plates_of crit plate_detections) v
  rw [h1, h2]

/-- C8: (i) on a non-empty candidate list the Plate Correlator returns a
candidate of minimal center distance; (ii) the strict `<` update makes the
first-seen candidate win exact ties (a candidate strictly closer than all
earlier ones and at least as close as all later ones is selected); (iii) a
record with an attached plate has fused confidence equal to the arithmetic
mean of the violation's own confidence and the plate's OCR confidence;
(iv) with the require-plate policy on and no valid plate in the frame,
every violation record is discarded. -/
theorem C8_plate_correlator :
    (∀ (hb : BBoxXYWH) (p : PlateDet) (ps : List PlateDet),
      ∃ q, find_nearest_plate hb (p :: ps) = some q ∧ q ∈ p :: ps
        ∧ ∀ r ∈ p :: ps, distSq (bboxCenter hb) (bboxCenter q.bbox) ≤
            distSq (bboxCenter hb) (bboxCenter r.bbox))
    ∧ (∀ (hb : BBoxXYWH) (l1 : List PlateDet) (q : PlateDet) (l2 : List PlateDet),
        (∀ r ∈ l1, distSq (bboxCenter hb) (bboxCenter q.bbox) <
            distSq (bboxCenter hb) (bboxCenter r.bbox)) →
        (∀ r ∈ l2, distSq (bboxCenter hb) (bboxCenter q.bbox) ≤
            distSq (bboxCenter hb) (bboxCenter r.bbox)) →
        find_nearest_plate hb (l1 ++ q :: l2) = some q)
    ∧ (∀ (crit : ViolationCriteria) (hs : List HelmetDet) (ps : List PlateDet) (ts : ℚ),
        (identify_violations crit hs ps ts).Forall
          (fun r => ∀ pl, r.license_plate = some pl →
            r.confidence_score = (r.helmet_detection.confidence + pl.confidence) / 2))
    ∧ (∀ (crit : ViolationCriteria) (hs : List HelmetDet) (ps : List PlateDet) (ts : ℚ),
        crit.require_plate_for_violation = true →
        valid_plates_of crit ps = [] →
        identify_violations crit hs ps ts = []) := by
  refine ⟨?_, ?_, ?_, ?_⟩
  · intro hb p ps
    obtain ⟨d', q', heq, hle, hmin, hatt⟩ :=
      nearest_fold_min (bboxCenter hb) ps (distSq (bboxCenter hb) (bboxCenter p.bbox)) p
    have hdq : d' = distSq (bboxCenter hb) (bboxCenter q'.bbox) := by
      rcases hatt with ⟨hq, hd⟩ | ⟨_, hval⟩
      · rw [hq, hd]
      · exact hval
    refine ⟨q', ?_, ?_, ?_⟩
    · simp only [find_nearest_plate, List.foldl_cons, nearestStep, heq]
      rfl
    · rcases hatt with ⟨hq, _⟩ | ⟨hmem, _⟩
      · rw [hq]; exact List.mem_cons_self _ _
      · exact List.mem_cons_of_mem p hmem
    · intro r hr
      rw [← hdq]
      rcases List.mem_cons.mp hr with rfl | hr
      · exact hle
      · exact hmin r hr
  · intro hb l1 q l2 hbefore hafter
    rcases l1 with _ | ⟨r, tl⟩
    · simp only [List.nil_append, find_nearest_plate, List.foldl_cons, nearestStep]
      rw [nearest_fold_keep (bboxCenter hb) l2 _ q hafter]
      rfl
    · have hrq : distSq (bboxCenter hb) (bboxCenter q.bbox) <
          distSq (bboxCenter hb) (bboxCenter r.bbox) :=
        hbefore r (List.mem_cons_self r tl)
      have htl : ∀ s ∈ tl, distSq (bboxCenter hb) (bboxCenter q.bbox) <
          distSq (bboxCenter hb) (bboxCenter s.bbox) :=
        fun s hs => hbefore s (List.mem_cons_of_mem r hs)
      simp only [List.cons_append, find_nearest_plate, List.foldl_cons, nearestStep]
      rw [nearest_fold_wins (bboxCenter hb) q l2 hafter tl _ r hrq htl]
      rfl
  · intro crit hs ps ts
    rw [List.forall_iff_forall_mem]
    intro r hr
    refine identify_foldl_mem crit ts (valid_plates_of crit ps)
      (fun r => ∀ pl, r.license_plate = some pl →
        r.confidence_score = (r.helmet_detection.confidence + pl.confidence) / 2)
      (helmet_violations_of crit hs) [] (by simp) ?_ r hr
    intro n v _ pl hpl
    obtain ⟨h1, _, h3⟩ := mkRecord_fields ts n (valid_plates_of crit ps) v
    rw [h1] at hpl
    rw [mkRecord_confidence ts n (valid_plates_of crit ps) v pl hpl, h3]
  · intro crit hs ps ts hreq hvalid
    rw [identify_violations, hvalid]
    exact identify_foldl_empty crit ts hreq (helmet_violations_of crit hs) []

/-- Witness for `C8_plate_correlator`: the spec's distance scenario
[50, 10, 30] — plates whose centers lie at squared distances 2500, 100, 900
from the violation center — selects the distance-10 plate; and the
require-plate discard on a plate-less frame. -/
theorem C8_plate_correlator_witness :
    (find_nearest_plate ⟨0, 0, 0, 0⟩
        [⟨"A", 1, true, ⟨50, 0, 0, 0⟩⟩, ⟨"B", 1, true, ⟨10, 0, 0, 0⟩⟩,
         ⟨"C", 1, true, ⟨30, 0, 0, 0⟩⟩] = some ⟨"B", 1, true, ⟨10, 0, 0, 0⟩⟩)
    ∧ identify_violations ⟨1 / 2, 3 / 5, true⟩ [⟨"NO_HELMET", 1, ⟨0, 0, 10, 10⟩⟩] [] 0 = [] :=
  ⟨C8_plate_correlator.2.1 ⟨0, 0, 0, 0⟩ [⟨"A", 1, true, ⟨50, 0, 0, 0⟩⟩]
      ⟨"B", 1, true, ⟨10, 0, 0, 0⟩⟩ [⟨"C", 1, true, ⟨30, 0, 0, 0⟩⟩]
      (by decide) (by decide),
   C8_plate_correlator.2.2.2 ⟨1 / 2, 3 / 5, true⟩ [⟨"NO_HELMET", 1, ⟨0, 0, 10, 10⟩⟩] [] 0
      rfl rfl⟩

/-- The `_identify_violations` fold appends at most one record per input
detection (helper for claim C5: frame processing is total and bounded for
ANY configuration, valid or not). -/
theorem identify_foldl_length (crit : ViolationCriteria) (ts : ℚ)
    (valid_plates : List PlateDet) :
    ∀ (l : List HelmetDet) (acc : List ViolationRecord),
      (l.foldl (identifyStep crit ts valid_plates) acc).length ≤ acc.length + l.length := by
  intro l
  induction l with
  | nil => intro acc; simp
  | cons v tl ih =>
    intro acc
    simp only [List.foldl_cons, List.length_cons]
    refine le_trans (ih (identifyStep crit ts valid_plates acc v)) ?_
    simp only [identifyStep]
    split
    · omega
    · simp only [List.length_append, List.length_singleton]
      omega

/-- C5, counterexample: the claim asserts that a configuration with a
threshold outside [0,1] makes session construction fail fast; the
`DetectionService` constructor (`detection_service.py` lines 28–53) contains
no validation and no `raise`, so it succeeds on a configuration whose
thresholds are all 2. -/
theorem C5_counterexample :
    ((2 : ℚ) < 0 ∨ 1 < (2 : ℚ))
    ∧ exceptIsOk (detectionServiceInit ⟨2, 2, ⟨2, 2, true⟩, ["en"]⟩) = true := by
  constructor
  · right
    norm_num
  · rfl

/-- C5 (amended): session construction performs NO validation — it succeeds
for every configuration, including thresholds outside [0,1] (there is no
re-log interval and no configurable pattern set in this service at all);
consequently no configuration error is raised at construction, and frame
processing is a total function that runs for any configuration (each input
detection contributes at most one record). -/
theorem C5_no_construction_validation :
    (∀ config : ServiceConfig, exceptIsOk (detectionServiceInit config) = true)
    ∧ (∀ (crit : ViolationCriteria) (hs : List HelmetDet) (ps : List PlateDet) (ts : ℚ),
        (identify_violations crit hs ps ts).length ≤ (helmet_violations_of crit hs).length) := by
  constructor
  · intro config
    rfl
  · intro crit hs ps ts
    have h := identify_foldl_length crit ts (valid_plates_of crit ps)
      (helmet_violations_of crit hs) []
    simpa using h

/-- C4, counterexample: the claim asserts that a zero video duration makes
the rate field report zero without raising; in `_generate_results_summary`
(`detection_service.py` line 376) the division
`len(violations) / (duration_seconds / 60)` is NOT guarded, so a zero-frame
video (duration 0 at 30 fps) raises `ZeroDivisionError`. -/
theorem C4_counterexample :
    exceptIsOk (generate_results_summary [] 30 0 []) = false := by
  have h1 : pyDiv ((0 : Nat) : ℚ) 30 = Except.ok 0 := by
    rw [pyDiv, if_neg (by norm_num : ¬(30 : ℚ) = 0)]
    norm_num
  have h2 : pyDiv ((([] : List ViolationRecord).length : Nat) : ℚ) ((0 : ℚ) / 60) =
      Except.error "ZeroDivisionError" := by
    rw [pyDiv, if_pos (by norm_num : (0 : ℚ) / 60 = 0)]
  simp only [generate_results_summary, h1, h2]
  rfl

/-- C4 (amended): only the throughput division is guarded — when the average
per-frame processing time is zero (no timing samples), the summary succeeds
and reports `processing_fps = 0`; but when the video duration is zero
(`total_frames = 0` with nonzero fps), the violation-rate division raises
`ZeroDivisionError` instead of reporting zero. -/
theorem C4_division_guards :
    (∀ (violations : List ViolationRecord) (fps : ℚ) (total_frames : Nat),
      fps ≠ 0 → ((total_frames : ℚ) / fps) ≠ 0 →
      ∃ s, generate_results_summary violations fps total_frames [] = Except.ok s
        ∧ s.avg_processing_time_ms = 0 ∧ s.processing_fps = 0)
    ∧ (∀ (violations : List ViolationRecord) (fps : ℚ) (times : List ℚ),
        fps ≠ 0 →
        generate_results_summary violations fps 0 times = Except.error "ZeroDivisionError") := by
  constructor
  · intro violations fps total_frames hfps hdur
    have h1 : pyDiv (total_frames : ℚ) fps = Except.ok ((total_frames : ℚ) / fps) := by
      rw [pyDiv, if_neg hfps]
    have h2 : ((total_frames : ℚ) / fps) / 60 ≠ 0 := by
      rw [div_ne_zero_iff]
      exact ⟨hdur, by norm_num⟩
    have h3 : pyDiv ((violations.length : Nat) : ℚ) (((total_frames : ℚ) / fps) / 60) =
        Except.ok (((violations.length : Nat) : ℚ) / (((total_frames : ℚ) / fps) / 60)) := by
      rw [pyDiv, if_neg h2]
    simp only [generate_results_summary, h1, h3, List.isEmpty_nil, if_true]
    refine ⟨_, rfl, rfl, ?_⟩
    norm_num
  · intro violations fps times hfps
    have h1 : pyDiv ((0 : Nat) : ℚ) fps = Except.ok 0 := by
      rw [pyDiv, if_neg hfps]
      norm_num
    have h2 : pyDiv ((violations.length : Nat) : ℚ) ((0 : ℚ) / 60) =
        Except.error "ZeroDivisionError" := by
      rw [pyDiv, if_pos (by norm_num : (0 : ℚ) / 60 = 0)]
    simp only [generate_results_summary, h1, h2]

/-- Witness for `C4_division_guards`: the spec's 60-second 30-fps
zero-violation session (1800 frames) succeeds with zero throughput, and a
zero-frame session at 30 fps raises. -/
theorem C4_division_guards_witness :
    ((30 : ℚ) ≠ 0 ∧ ((1800 : Nat) : ℚ) / 30 ≠ 0
      ∧ ∃ s, generate_results_summary [] 30 1800 [] = Except.ok s
          ∧ s.avg_processing_time_ms = 0 ∧ s.processing_fps = 0)
    ∧ generate_results_summary [] 30 0 [] = Except.error "ZeroDivisionError" :=
  ⟨⟨by norm_num, by norm_num,
    C4_division_guards.1 [] 30 1800 (by norm_num) (by norm_num)⟩,
   C4_division_guards.2 [] 30 [] (by norm_num)⟩

/-- C10: (i) pattern validation accepts every non-empty string over
`[A-Z0-9]` (the generic `standard` pattern matches it); (ii) every character
of a cleaned plate text is an uppercase letter other than O, I, S, G, or a
digit; (iii) hence validation accepts every non-empty cleaning output; and
(iv) it rejects the empty string, so a cleaned plate text is rejected only
when it is empty. -/
theorem C10_pattern_validation :
    (∀ s : List Char, s ≠ [] → (∀ c ∈ s, (isUpperAZ c || isDigit09 c) = true) →
      (validate_plate_pattern s).is_valid = true)
    ∧ (∀ s : List Char, ∀ c ∈ clean_plate_text s,
        (isUpperAZ c = true ∧ c ≠ 'O' ∧ c ≠ 'I' ∧ c ≠ 'S' ∧ c ≠ 'G')
        ∨ isDigit09 c = true)
    ∧ (∀ s : List Char, clean_plate_text s ≠ [] →
        (validate_plate_pattern (clean_plate_text s)).is_valid = true)
    ∧ (validate_plate_pattern []).is_valid = false := by
  have hvalid : ∀ s : List Char, s ≠ [] → (∀ c ∈ s, (isUpperAZ c || isDigit09 c) = true) →
      (validate_plate_pattern s).is_valid = true := by
    intro s hne hall
    have hst : matchStandardCore s = true := by
      simp only [matchStandardCore, Bool.and_eq_true, List.all_eq_true]
      refine ⟨by simpa [List.isEmpty_iff] using hne, ?_⟩
      intro c hc
      rcases Bool.or_eq_true_iff.mp (hall c hc) with h | h <;> simp [h]
    simp only [validate_plate_pattern, pyFullMatch, hst, Bool.true_or, Bool.or_true]
  have hchars : ∀ s : List Char, ∀ c ∈ clean_plate_text s,
      (isUpperAZ c = true ∧ c ≠ 'O' ∧ c ≠ 'I' ∧ c ≠ 'S' ∧ c ≠ 'G')
      ∨ isDigit09 c = true := by
    intro s c hc
    simp only [clean_plate_text, List.mem_map, List.mem_filter] at hc
    obtain ⟨d, ⟨_, hd⟩, rfl⟩ := hc
    by_cases hO : d = 'O'
    · right; rw [hO]; decide
    · by_cases hI : d = 'I'
      · right; rw [hI]; decide
      · by_cases hS : d = 'S'
        · right; rw [hS]; decide
        · by_cases hG : d = 'G'
          · right; rw [hG]; decide
          · rw [substOCR, if_neg hO, if_neg hI, if_neg hS, if_neg hG]
            rcases Bool.or_eq_true_iff.mp hd with h | h
            · exact Or.inl ⟨h, hO, hI, hS, hG⟩
            · exact Or.inr h
  refine ⟨hvalid, hchars, ?_, by decide⟩
  intro s hne
  refine hvalid (clean_plate_text s) hne ?_
  intro c hc
  rcases hchars s c hc with ⟨h, _⟩ | h <;> simp [h]

/-- Witness for `C10_pattern_validation`: the literal "MH12" is accepted,
and the cleaning output of "mh-1os" (which is "MH105") is non-empty and
accepted. -/
theorem C10_pattern_validation_witness :
    ((['M', 'H', '1', '2'] : List Char) ≠ []
      ∧ (validate_plate_pattern ['M', 'H', '1', '2']).is_valid = true)
    ∧ (clean_plate_text ['m', 'h', '-', '1', 'o', 's'] ≠ []
      ∧ (validate_plate_pattern
          (clean_plate_text ['m', 'h', '-', '1', 'o', 's'])).is_valid = true) :=
  ⟨⟨by decide, C10_pattern_validation.1 ['M', 'H', '1', '2'] (by decide) (by decide)⟩,
   ⟨by decide, C10_pattern_validation.2.2.1 ['m', 'h', '-', '1', 'o', 's'] (by decide)⟩⟩

end RideSecure
